import Mathlib

/-!
Verification of the API-gateway subsystem of the shopping-list microservices
repository (`src/api-gateway/server.js`), shallowly embedded in Lean 4.

The embedding mirrors the gateway source:
* `isCircuitOpen`, `recordFailure`, `resetCircuitBreaker` — the circuit
  breaker table (`this.circuitBreakers`, a `Map` from service name to a
  record `{failures, isOpen, isHalfOpen, lastFailure}`);
* `buildTargetPath` — the per-service path rewriting inside `proxyRequest`
  (JS `String.prototype.replace` with a string pattern replaces the first
  occurrence only, modelled by `jsReplace`);
* `proxyRequest` — the proxy flow: breaker check, registry discovery,
  forwarding, and outcome handling.  The downstream behaviour (what axios
  would observe) is an explicit `NetOutcome` oracle, and the result records
  whether a registry lookup and a network call happened;
* `getDashboard`, `globalSearch` — the aggregate endpoints; the settled
  outcomes of the constituent `callService` calls are explicit parameters
  (`Settled`), matching `Promise.allSettled` semantics.

JSON bodies produced with `res.json` are modelled by the `JVal` type; a
field whose JS value is `undefined` is omitted from the object, as JSON
serialization does.  Time is `Nat` milliseconds (`Date.now()`).

`serviceRegistry` lives in `shared/serviceRegistry.js`, outside the gateway
file; per its contract (`discover` fails when the name is absent,
`listServices` returns the name-keyed snapshot) it is modelled as an
association list from service name to base url.
-/

/-- JSON-like values, the image of `res.json` payloads. -/
inductive JVal where
  | null
  | bool (b : Bool)
  | str (s : String)
  | num (n : Int)
  | arr (xs : List JVal)
  | obj (fields : List (String × JVal))

/-- Field lookup in an object's field list (first binding wins). -/
def jLookupFs : List (String × JVal) → String → Option JVal
  | [], _ => none
  | (k', v) :: t, k => if k' = k then some v else jLookupFs t k

/-- Field lookup on a `JVal`; non-objects have no fields. -/
def jLookup : JVal → String → Option JVal
  | .obj fs, k => jLookupFs fs k
  | _, _ => none

/-- Lookup along a path of field names. -/
def jPath : JVal → List String → Option JVal
  | v, [] => some v
  | v, k :: ks =>
    match jLookup v k with
    | some w => jPath w ks
    | none => none

/-- A field that is present only when its JS value is defined
(`undefined`-valued fields are dropped by JSON serialization). -/
def jfield (k : String) : Option JVal → List (String × JVal)
  | none => []
  | some v => [(k, v)]

/-- JS falsiness of a defined value (`null`, `false`, `""`, `0` are falsy). -/
def jFalsy : JVal → Bool
  | .null => true
  | .bool b => !b
  | .str s => s = ""
  | .num n => n = 0
  | .arr _ => false
  | .obj _ => false

/-- One entry of the gateway's circuit breaker table: the object built by
`recordFailure` (`{failures, isOpen, isHalfOpen, lastFailure}`). -/
structure Breaker where
  failures : Nat
  isOpen : Bool
  isHalfOpen : Bool
  lastFailure : Option Nat
deriving Repr, DecidableEq

section AssocList

variable {α : Type}

/-- Model of `Map.get`: first binding for a key, if any. -/
def alGet : List (String × α) → String → Option α
  | [], _ => none
  | (k', v) :: t, k => if k' = k then some v else alGet t k

/-- Model of `Map.set`: replace the binding for a key, or append a fresh one. -/
def alSet : List (String × α) → String → α → List (String × α)
  | [], k, v => [(k, v)]
  | (k', v') :: t, k, v => if k' = k then (k, v) :: t else (k', v') :: alSet t k v

theorem alGet_alSet_self (m : List (String × α)) (k : String) (v : α) :
    alGet (alSet m k v) k = some v := by
  induction m with
  | nil => simp [alGet, alSet]
  | cons h t ih =>
    obtain ⟨k', v'⟩ := h
    by_cases hk : k' = k
    · simp [alGet, alSet, hk]
    · simp [alGet, alSet, hk, ih]

end AssocList

/-- The gateway's `this.circuitBreakers` map. -/
def BreakerMap := List (String × Breaker)

/-- The service registry seen through `discover`/`listServices`:
service name ↦ base url. -/
def Registry := List (String × String)

/-- Source `isCircuitOpen(serviceName)` — returns whether the request must be
short-circuited, together with the (possibly mutated) breaker table:
when the breaker is open and more than 30000 ms have passed since
`lastFailure` the breaker object is flipped to half-open in place and the
check reports the circuit as not open. -/
def isCircuitOpen (cbs : BreakerMap) (name : String) (now : Nat) : Bool × BreakerMap :=
  match alGet cbs name with
  | none => (false, cbs)
  | some b =>
    if b.isOpen = true ∧ 30000 < now - b.lastFailure.getD 0 then
      (false, alSet cbs name { b with isOpen := false, isHalfOpen := true })
    else
      (b.isOpen, cbs)

/-- Source `recordFailure(serviceName)` — increments the failure count, stamps
`lastFailure`, and opens the circuit once `failures >= 3`. -/
def recordFailure (cbs : BreakerMap) (name : String) (now : Nat) : BreakerMap :=
  let b0 := (alGet cbs name).getD { failures := 0, isOpen := false, isHalfOpen := false, lastFailure := none }
  let b1 := { b0 with failures := b0.failures + 1, lastFailure := some now }
  let b2 := if 3 ≤ b1.failures then { b1 with isOpen := true, isHalfOpen := false } else b1
  alSet cbs name b2

/-- Source `resetCircuitBreaker(serviceName)` — clears the counters of an existing
breaker entry; does nothing when the service has no entry. -/
def resetCircuitBreaker (cbs : BreakerMap) (name : String) : BreakerMap :=
  match alGet cbs name with
  | none => cbs
  | some b => alSet cbs name { b with failures := 0, isOpen := false, isHalfOpen := false }

/-- Failure count currently recorded for a service (0 when absent). -/
def failCount (cbs : BreakerMap) (name : String) : Nat :=
  ((alGet cbs name).map Breaker.failures).getD 0

/-! ## Path rewriting (`proxyRequest`, target-path construction) -/

/-- Replace the first occurrence of `pat` in a character list by `rep`
(the behaviour of JS `String.prototype.replace` with a string pattern). -/
def rfAux (pat rep : List Char) : List Char → List Char
  | [] => []
  | c :: t =>
    if pat.isPrefixOf (c :: t) then rep ++ (c :: t).drop pat.length
    else c :: rfAux pat rep t

/-- JS `s.replace(pat, rep)` for string patterns: first occurrence only. -/
def jsReplace (s pat rep : String) : String :=
  String.mk (rfAux pat.data rep.data s.data)

/-- JS `s.startsWith(pre)`. -/
def jsStartsWith (s pre : String) : Bool :=
  pre.data.isPrefixOf s.data

/-- The target-path computation of `proxyRequest`: per-service prefix
rewriting of `req.originalUrl`, followed by the leading-slash and
empty-path guards.  Unknown service names leave the path empty, as in the
source (no branch assigns it). -/
def buildTargetPath (serviceName originalPath : String) : String :=
  if serviceName = "user-service" then
    let t0 := if jsStartsWith originalPath "/api/auth" then
        jsReplace originalPath "/api/auth" "/auth"
      else
        jsReplace originalPath "/api/users" "/users"
    let t1 := if jsStartsWith t0 "/" then t0 else "/" ++ t0
    if t1 = "/" ∨ t1 = "" then "/users" else t1
  else if serviceName = "item-service" then
    let t0 := if jsStartsWith originalPath "/api/categories" then
        jsReplace originalPath "/api/categories" "/categories"
      else if jsStartsWith originalPath "/api/search/items" then
        jsReplace originalPath "/api/search/items" "/search"
      else
        jsReplace originalPath "/api/items" "/items"
    let t1 := if jsStartsWith t0 "/" then t0 else "/" ++ t0
    if t1 = "/" ∨ t1 = "" then "/items" else t1
  else if serviceName = "list-service" then
    let t0 := jsReplace originalPath "/api/lists" "/lists"
    let t1 := if jsStartsWith t0 "/" then t0 else "/" ++ t0
    if t1 = "/" ∨ t1 = "" then "/lists" else t1
  else ""

/-! ## The proxy -/

/-- The downstream behaviour axios would observe for a forwarded request:
a reply with some status and JSON body, a connection refusal
(`ECONNREFUSED`), a timeout (`ETIMEDOUT`), or some other failure without a
response object. -/
inductive NetOutcome where
  | reply (status : Nat) (data : JVal)
  | connRefused
  | timedOut
  | otherFailure (msg : String)

/-- Observable outcome of one `proxyRequest` invocation: response status and
body, the breaker table afterwards, whether the registry was consulted,
whether a network call was attempted, and the forwarded target url. -/
structure ProxyResult where
  status : Nat
  body : JVal
  breakers : BreakerMap
  didLookup : Bool
  didNetwork : Bool
  targetUrl : Option String

/-- Body of the breaker short-circuit 503. -/
def circuitOpenBody (name : String) : JVal :=
  .obj [("success", .bool false),
        ("message", .str ("Serviço " ++ name ++ " temporariamente indisponível")),
        ("service", .str name)]

/-- Body of the registry-miss 503 (names the service and lists the
currently known service names). -/
def notFoundBody (name : String) (available : List String) : JVal :=
  .obj [("success", .bool false),
        ("message", .str ("Serviço " ++ name ++ " não encontrado")),
        ("service", .str name),
        ("availableServices", .arr (available.map JVal.str))]

/-- Body of the network-failure 503 (carries the axios error code). -/
def unavailBody (name code : String) : JVal :=
  .obj [("success", .bool false),
        ("message", .str ("Serviço " ++ name ++ " indisponível")),
        ("service", .str name),
        ("error", .str code)]

/-- Body of the catch-all 500 for errors with neither a known code nor a
response object. -/
def gatewayErrBody (msg : String) : JVal :=
  .obj [("success", .bool false),
        ("message", .str "Erro interno do gateway"),
        ("service", .str "api-gateway"),
        ("error", .str msg)]

/-- Body of the gateway's 404 handler (`setupErrorHandling`), keeping the
fields the claims are about. -/
def endpoint404Body : JVal :=
  .obj [("success", .bool false),
        ("message", .str "Endpoint não encontrado"),
        ("service", .str "api-gateway")]

/-- Source `proxyRequest(serviceName, req, res)`:
1. breaker check (may mutate the table);
2. `serviceRegistry.discover`, answering 503 with the known names on a miss;
3. forwarding with `validateStatus: status < 500`, so a reply below 500
   resolves (reset the breaker, relay it) and a reply at 500 or above
   rejects with `error.response` set (record a failure, relay it);
   `ECONNREFUSED`/`ETIMEDOUT` give the synthesized 503, any other
   response-less error the 500 envelope. -/
def proxyRequest (name originalUrl : String) (cbs : BreakerMap) (reg : Registry)
    (now : Nat) (net : NetOutcome) : ProxyResult :=
  let co := isCircuitOpen cbs name now
  if co.1 then
    { status := 503, body := circuitOpenBody name, breakers := co.2,
      didLookup := false, didNetwork := false, targetUrl := none }
  else
    match alGet reg name with
    | none =>
      { status := 503, body := notFoundBody name (reg.map Prod.fst), breakers := co.2,
        didLookup := true, didNetwork := false, targetUrl := none }
    | some url =>
      let tUrl := url ++ buildTargetPath name originalUrl
      match net with
      | .reply s d =>
        if s < 500 then
          { status := s, body := d, breakers := resetCircuitBreaker co.2 name,
            didLookup := true, didNetwork := true, targetUrl := some tUrl }
        else
          { status := s, body := d, breakers := recordFailure co.2 name now,
            didLookup := true, didNetwork := true, targetUrl := some tUrl }
      | .connRefused =>
        { status := 503, body := unavailBody name "ECONNREFUSED",
          breakers := recordFailure co.2 name now,
          didLookup := true, didNetwork := true, targetUrl := some tUrl }
      | .timedOut =>
        { status := 503, body := unavailBody name "ETIMEDOUT",
          breakers := recordFailure co.2 name now,
          didLookup := true, didNetwork := true, targetUrl := some tUrl }
      | .otherFailure m =>
        { status := 500, body := gatewayErrBody m,
          breakers := recordFailure co.2 name now,
          didLookup := true, didNetwork := true, targetUrl := some tUrl }

/-! ## Aggregation (`getDashboard`, `globalSearch`) -/

/-- One settled outcome of `Promise.allSettled`: fulfilled with the
`callService` body, or rejected with an error message. -/
inductive Settled where
  | fulfilled (v : JVal)
  | rejected (msg : String)

/-- Whether a settled outcome is fulfilled. -/
def Settled.isFulfilled : Settled → Bool
  | .fulfilled _ => true
  | .rejected _ => false

/-- One dashboard label: `{available, data: value.data | null, error}`
(an undefined `value.data` is omitted from the serialized object). -/
def dashLabel (r : Settled) : JVal :=
  .obj ([("available", .bool r.isFulfilled)]
    ++ jfield "data" (match r with
        | .fulfilled v => jLookup v "data"
        | .rejected _ => some .null)
    ++ jfield "error" (match r with
        | .fulfilled _ => some .null
        | .rejected m => some (.str m)))

/-- The expression `value.data?.results || value.data` of `globalSearch`: the `results`
field of the body's `data` (optional chaining yields nothing when `data`
is null or absent), falling back to `data` itself when that field is
missing or falsy. -/
def searchResultsVal (v : JVal) : Option JVal :=
  let d := jLookup v "data"
  let dr : Option JVal :=
    match d with
    | some dv =>
      match dv with
      | .null => none
      | _ => jLookup dv "results"
    | none => none
  match dr with
  | some rv => if jFalsy rv then d else some rv
  | none => d

/-- One global-search label: `{available, results: ... | [], error}`. -/
def searchLabel (r : Settled) : JVal :=
  .obj ([("available", .bool r.isFulfilled)]
    ++ jfield "results" (match r with
        | .fulfilled v => searchResultsVal v
        | .rejected _ => some (.arr []))
    ++ jfield "error" (match r with
        | .fulfilled _ => some .null
        | .rejected m => some (.str m)))

/-- Observable outcome of an aggregate endpoint: response status and body,
and how many downstream `callService` calls were issued. -/
structure AggResult where
  status : Nat
  body : JVal
  callsIssued : Nat

/-- Source `getDashboard(req, res)`: without an `Authorization` header the whole
request is rejected with 401 before any downstream call; with one, four
calls are fanned out via `Promise.allSettled` and merged into one 200
response whose labels report each outcome independently. -/
def getDashboard (authHeader : Option String) (timestamp : String) (servicesStatus : JVal)
    (userR itemsR listsR catsR : Settled) : AggResult :=
  match authHeader with
  | none =>
    { status := 401,
      body := .obj [("success", .bool false),
                    ("message", .str "Token de autenticação obrigatório para acessar o dashboard")],
      callsIssued := 0 }
  | some _ =>
    { status := 200,
      body := .obj [("success", .bool true),
        ("data", .obj [
          ("timestamp", .str timestamp),
          ("domain", .str "Sistema de Lista de Compras"),
          ("architecture", .str "Microservices with NoSQL"),
          ("database_approach", .str "Database per Service"),
          ("services_status", servicesStatus),
          ("user_data", .obj [("profile", dashLabel userR)]),
          ("shopping_data", .obj [
            ("lists", dashLabel listsR),
            ("items", dashLabel itemsR),
            ("categories", dashLabel catsR)])])],
      callsIssued := 4 }

/-- Source `globalSearch(req, res)`: a missing or empty `q` (JS falsiness of the
query-string value) is rejected with 400 before any downstream call; the
item search is always issued, the list search only when an `Authorization`
header is present, and the `lists` label exists only in that case. -/
def globalSearch (q : Option String) (authHeader : Option String)
    (itemR listR : Settled) : AggResult :=
  match q with
  | none =>
    { status := 400,
      body := .obj [("success", .bool false),
                    ("message", .str "Parâmetro de busca \"q\" é obrigatório")],
      callsIssued := 0 }
  | some s =>
    if s = "" then
      { status := 400,
        body := .obj [("success", .bool false),
                      ("message", .str "Parâmetro de busca \"q\" é obrigatório")],
        callsIssued := 0 }
    else
      { status := 200,
        body := .obj [("success", .bool true),
          ("data", .obj ([("query", .str s), ("items", searchLabel itemR)]
            ++ (if authHeader.isSome then [("lists", searchLabel listR)] else [])))],
        callsIssued := if authHeader.isSome then 2 else 1 }

/-! ## Helper lemmas: association lists, strings, substring occurrence -/

/-- Whether `pat` occurs as a contiguous substring of `l`. -/
def hasInfix : List Char → List Char → Bool
  | [], _ => false
  | c :: t, pat => pat.isPrefixOf (c :: t) || hasInfix t pat

/-- Every non-empty suffix of `a` is prefix-incomparable with `pat`
(used to rule out occurrences of `pat` that start inside `a`). -/
def suffixCheck (pat : List Char) : List Char → Bool
  | [] => true
  | c :: t => !((c :: t).isPrefixOf pat) && !(pat.isPrefixOf (c :: t)) && suffixCheck pat t

theorem strMkData (s : String) : String.mk s.data = s := by
  obtain ⟨d⟩ := s
  rfl

theorem isPrefixOf_true_of (pat a b : List Char) (h : pat.isPrefixOf a = true) :
    pat.isPrefixOf (a ++ b) = true := by
  rw [ List.isPrefixOf_iff_prefix] at h ⊢
  exact h.trans (List.prefix_append a b)

theorem isPrefixOf_append_eq_false (pat a b : List Char)
    (h1 : a.isPrefixOf pat = false) (h2 : pat.isPrefixOf a = false) :
    pat.isPrefixOf (a ++ b) = false := by
  by_contra hc
  rw [Bool.not_eq_false, List.isPrefixOf_iff_prefix] at hc
  rcases List.prefix_or_prefix_of_prefix hc (List.prefix_append a b) with h | h
  · rw [← List.isPrefixOf_iff_prefix] at h
    rw [h] at h2
    simp at h2
  · rw [← List.isPrefixOf_iff_prefix] at h
    rw [h] at h1
    simp at h1

theorem rfAux_no_occ (pat rep l : List Char) (h : hasInfix l pat = false) :
    rfAux pat rep l = l := by
  induction l with
  | nil => rfl
  | cons c t ih =>
    rw [hasInfix, Bool.or_eq_false_iff] at h
    obtain ⟨h1, h2⟩ := h
    rw [rfAux, if_neg (by simp [h1]), ih h2]

theorem hasInfix_append_eq_false (pat a b : List Char)
    (ha : suffixCheck pat a = true) (hb : hasInfix b pat = false) :
    hasInfix (a ++ b) pat = false := by
  induction a with
  | nil => simpa using hb
  | cons c t ih =>
    rw [suffixCheck] at ha
    simp only [Bool.and_eq_true, Bool.not_eq_true'] at ha
    obtain ⟨⟨h1, h2⟩, h3⟩ := ha
    have hp : pat.isPrefixOf ((c :: t) ++ b) = false :=
      isPrefixOf_append_eq_false pat (c :: t) b h1 h2
    rw [List.cons_append] at hp ⊢
    rw [hasInfix, hp, ih h3]
    rfl

theorem hasInfix_of_isPrefixOf (pat' pat l : List Char)
    (hp : pat'.isPrefixOf pat = true) (h : hasInfix l pat' = false) :
    hasInfix l pat = false := by
  induction l with
  | nil => rfl
  | cons c t ih =>
    rw [hasInfix, Bool.or_eq_false_iff] at h ⊢
    obtain ⟨h1, h2⟩ := h
    refine ⟨?_, ih h2⟩
    by_contra hx
    rw [Bool.not_eq_false, List.isPrefixOf_iff_prefix] at hx
    rw [ List.isPrefixOf_iff_prefix] at hp
    have : pat'.isPrefixOf (c :: t) = true := by
      rw [ List.isPrefixOf_iff_prefix]
      exact hp.trans hx
    rw [this] at h1
    simp at h1

theorem jsReplace_at_head (pre rep rest : String) (h : pre.data ≠ []) :
    jsReplace (pre ++ rest) pre rep = rep ++ rest := by
  unfold jsReplace
  rw [String.data_append]
  rcases hp : pre.data with _ | ⟨c, t⟩
  · exact absurd hp h
  · rw [List.cons_append, rfAux, if_pos ?_, ← List.cons_append, List.drop_left]
    · obtain ⟨rd⟩ := rest
      obtain ⟨pd⟩ := rep
      rfl
    · rw [ List.isPrefixOf_iff_prefix, ← List.cons_append]
      exact List.prefix_append _ _

theorem jsReplace_no_occ (s pat rep : String) (h : hasInfix s.data pat.data = false) :
    jsReplace s pat rep = s := by
  unfold jsReplace
  rw [rfAux_no_occ _ _ _ h]

theorem jsStartsWith_append_self (pre rest : String) :
    jsStartsWith (pre ++ rest) pre = true := by
  unfold jsStartsWith
  rw [String.data_append, List.isPrefixOf_iff_prefix]
  exact List.prefix_append _ _

theorem jsStartsWith_append_of (a rest pre : String)
    (h : pre.data.isPrefixOf a.data = true) :
    jsStartsWith (a ++ rest) pre = true := by
  unfold jsStartsWith
  rw [String.data_append]
  exact isPrefixOf_true_of _ _ _ h

theorem jsStartsWith_append_ne (a rest pre : String)
    (h1 : a.data.isPrefixOf pre.data = false) (h2 : pre.data.isPrefixOf a.data = false) :
    jsStartsWith (a ++ rest) pre = false := by
  unfold jsStartsWith
  rw [String.data_append]
  exact isPrefixOf_append_eq_false _ _ _ h1 h2

theorem append_ne_of_lt (a b c : String) (h : c.data.length < a.data.length) :
    a ++ b ≠ c := by
  intro e
  have hd : (a ++ b).data = c.data := by rw [e]
  rw [String.data_append] at hd
  have hl : a.data.length + b.data.length = c.data.length := by
    simpa [List.length_append] using congrArg List.length hd
  omega

/-! ## Per-route facts about `buildTargetPath` -/

theorem rw_user_auth (rest : String) :
    buildTargetPath "user-service" ("/api/auth" ++ rest) = "/auth" ++ rest := by
  have h1 : jsStartsWith ("/api/auth" ++ rest) "/api/auth" = true := jsStartsWith_append_self _ _
  have h2 : jsReplace ("/api/auth" ++ rest) "/api/auth" "/auth" = "/auth" ++ rest :=
    jsReplace_at_head _ _ _ (by decide)
  have h3 : jsStartsWith ("/auth" ++ rest) "/" = true := jsStartsWith_append_of _ _ _ (by decide)
  have h4 : "/auth" ++ rest ≠ "/" := append_ne_of_lt _ _ _ (by decide)
  have h5 : "/auth" ++ rest ≠ "" := append_ne_of_lt _ _ _ (by decide)
  simp [buildTargetPath, h1, h2, h3, h4, h5]

theorem rw_user_users (rest : String) :
    buildTargetPath "user-service" ("/api/users" ++ rest) = "/users" ++ rest := by
  have hA : jsStartsWith ("/api/users" ++ rest) "/api/auth" = false :=
    jsStartsWith_append_ne _ _ _ (by decide) (by decide)
  have h2 : jsReplace ("/api/users" ++ rest) "/api/users" "/users" = "/users" ++ rest :=
    jsReplace_at_head _ _ _ (by decide)
  have h3 : jsStartsWith ("/users" ++ rest) "/" = true := jsStartsWith_append_of _ _ _ (by decide)
  have h4 : "/users" ++ rest ≠ "/" := append_ne_of_lt _ _ _ (by decide)
  have h5 : "/users" ++ rest ≠ "" := append_ne_of_lt _ _ _ (by decide)
  simp [buildTargetPath, hA, h2, h3, h4, h5]

theorem rw_item_items (rest : String) :
    buildTargetPath "item-service" ("/api/items" ++ rest) = "/items" ++ rest := by
  have hA : jsStartsWith ("/api/items" ++ rest) "/api/categories" = false :=
    jsStartsWith_append_ne _ _ _ (by decide) (by decide)
  have hB : jsStartsWith ("/api/items" ++ rest) "/api/search/items" = false :=
    jsStartsWith_append_ne _ _ _ (by decide) (by decide)
  have h2 : jsReplace ("/api/items" ++ rest) "/api/items" "/items" = "/items" ++ rest :=
    jsReplace_at_head _ _ _ (by decide)
  have h3 : jsStartsWith ("/items" ++ rest) "/" = true := jsStartsWith_append_of _ _ _ (by decide)
  have h4 : "/items" ++ rest ≠ "/" := append_ne_of_lt _ _ _ (by decide)
  have h5 : "/items" ++ rest ≠ "" := append_ne_of_lt _ _ _ (by decide)
  simp [buildTargetPath, hA, hB, h2, h3, h4, h5]

theorem rw_item_categories (rest : String) :
    buildTargetPath "item-service" ("/api/categories" ++ rest) = "/categories" ++ rest := by
  have h1 : jsStartsWith ("/api/categories" ++ rest) "/api/categories" = true :=
    jsStartsWith_append_self _ _
  have h2 : jsReplace ("/api/categories" ++ rest) "/api/categories" "/categories" =
      "/categories" ++ rest := jsReplace_at_head _ _ _ (by decide)
  have h3 : jsStartsWith ("/categories" ++ rest) "/" = true :=
    jsStartsWith_append_of _ _ _ (by decide)
  have h4 : "/categories" ++ rest ≠ "/" := append_ne_of_lt _ _ _ (by decide)
  have h5 : "/categories" ++ rest ≠ "" := append_ne_of_lt _ _ _ (by decide)
  simp [buildTargetPath, h1, h2, h3, h4, h5]

theorem rw_item_search (rest : String) :
    buildTargetPath "item-service" ("/api/search/items" ++ rest) = "/search" ++ rest := by
  have hA : jsStartsWith ("/api/search/items" ++ rest) "/api/categories" = false :=
    jsStartsWith_append_ne _ _ _ (by decide) (by decide)
  have h1 : jsStartsWith ("/api/search/items" ++ rest) "/api/search/items" = true :=
    jsStartsWith_append_self _ _
  have h2 : jsReplace ("/api/search/items" ++ rest) "/api/search/items" "/search" =
      "/search" ++ rest := jsReplace_at_head _ _ _ (by decide)
  have h3 : jsStartsWith ("/search" ++ rest) "/" = true := jsStartsWith_append_of _ _ _ (by decide)
  have h4 : "/search" ++ rest ≠ "/" := append_ne_of_lt _ _ _ (by decide)
  have h5 : "/search" ++ rest ≠ "" := append_ne_of_lt _ _ _ (by decide)
  simp [buildTargetPath, hA, h1, h2, h3, h4, h5]

theorem rw_list_lists (rest : String) :
    buildTargetPath "list-service" ("/api/lists" ++ rest) = "/lists" ++ rest := by
  have h2 : jsReplace ("/api/lists" ++ rest) "/api/lists" "/lists" = "/lists" ++ rest :=
    jsReplace_at_head _ _ _ (by decide)
  have h3 : jsStartsWith ("/lists" ++ rest) "/" = true := jsStartsWith_append_of _ _ _ (by decide)
  have h4 : "/lists" ++ rest ≠ "/" := append_ne_of_lt _ _ _ (by decide)
  have h5 : "/lists" ++ rest ≠ "" := append_ne_of_lt _ _ _ (by decide)
  simp [buildTargetPath, h2, h3, h4, h5]

theorem rw_user_auth_idem (rest : String) (h : hasInfix rest.data "/api".data = false) :
    buildTargetPath "user-service" ("/auth" ++ rest) = "/auth" ++ rest := by
  have hA : jsStartsWith ("/auth" ++ rest) "/api/auth" = false :=
    jsStartsWith_append_ne _ _ _ (by decide) (by decide)
  have hocc : hasInfix ("/auth" ++ rest).data "/api/users".data = false := by
    rw [String.data_append]
    exact hasInfix_append_eq_false _ _ _ (by decide)
      (hasInfix_of_isPrefixOf "/api".data _ _ (by decide) h)
  have h2 : jsReplace ("/auth" ++ rest) "/api/users" "/users" = "/auth" ++ rest :=
    jsReplace_no_occ _ _ _ hocc
  have h3 : jsStartsWith ("/auth" ++ rest) "/" = true := jsStartsWith_append_of _ _ _ (by decide)
  have h4 : "/auth" ++ rest ≠ "/" := append_ne_of_lt _ _ _ (by decide)
  have h5 : "/auth" ++ rest ≠ "" := append_ne_of_lt _ _ _ (by decide)
  simp [buildTargetPath, hA, h2, h3, h4, h5]

theorem rw_user_users_idem (rest : String) (h : hasInfix rest.data "/api".data = false) :
    buildTargetPath "user-service" ("/users" ++ rest) = "/users" ++ rest := by
  have hA : jsStartsWith ("/users" ++ rest) "/api/auth" = false :=
    jsStartsWith_append_ne _ _ _ (by decide) (by decide)
  have hocc : hasInfix ("/users" ++ rest).data "/api/users".data = false := by
    rw [String.data_append]
    exact hasInfix_append_eq_false _ _ _ (by decide)
      (hasInfix_of_isPrefixOf "/api".data _ _ (by decide) h)
  have h2 : jsReplace ("/users" ++ rest) "/api/users" "/users" = "/users" ++ rest :=
    jsReplace_no_occ _ _ _ hocc
  have h3 : jsStartsWith ("/users" ++ rest) "/" = true := jsStartsWith_append_of _ _ _ (by decide)
  have h4 : "/users" ++ rest ≠ "/" := append_ne_of_lt _ _ _ (by decide)
  have h5 : "/users" ++ rest ≠ "" := append_ne_of_lt _ _ _ (by decide)
  simp [buildTargetPath, hA, h2, h3, h4, h5]

theorem rw_item_items_idem (rest : String) (h : hasInfix rest.data "/api".data = false) :
    buildTargetPath "item-service" ("/items" ++ rest) = "/items" ++ rest := by
  have hA : jsStartsWith ("/items" ++ rest) "/api/categories" = false :=
    jsStartsWith_append_ne _ _ _ (by decide) (by decide)
  have hB : jsStartsWith ("/items" ++ rest) "/api/search/items" = false :=
    jsStartsWith_append_ne _ _ _ (by decide) (by decide)
  have hocc : hasInfix ("/items" ++ rest).data "/api/items".data = false := by
    rw [String.data_append]
    exact hasInfix_append_eq_false _ _ _ (by decide)
      (hasInfix_of_isPrefixOf "/api".data _ _ (by decide) h)
  have h2 : jsReplace ("/items" ++ rest) "/api/items" "/items" = "/items" ++ rest :=
    jsReplace_no_occ _ _ _ hocc
  have h3 : jsStartsWith ("/items" ++ rest) "/" = true := jsStartsWith_append_of _ _ _ (by decide)
  have h4 : "/items" ++ rest ≠ "/" := append_ne_of_lt _ _ _ (by decide)
  have h5 : "/items" ++ rest ≠ "" := append_ne_of_lt _ _ _ (by decide)
  simp [buildTargetPath, hA, hB, h2, h3, h4, h5]

theorem rw_item_categories_idem (rest : String) (h : hasInfix rest.data "/api".data = false) :
    buildTargetPath "item-service" ("/categories" ++ rest) = "/categories" ++ rest := by
  have hA : jsStartsWith ("/categories" ++ rest) "/api/categories" = false :=
    jsStartsWith_append_ne _ _ _ (by decide) (by decide)
  have hB : jsStartsWith ("/categories" ++ rest) "/api/search/items" = false :=
    jsStartsWith_append_ne _ _ _ (by decide) (by decide)
  have hocc : hasInfix ("/categories" ++ rest).data "/api/items".data = false := by
    rw [String.data_append]
    exact hasInfix_append_eq_false _ _ _ (by decide)
      (hasInfix_of_isPrefixOf "/api".data _ _ (by decide) h)
  have h2 : jsReplace ("/categories" ++ rest) "/api/items" "/items" = "/categories" ++ rest :=
    jsReplace_no_occ _ _ _ hocc
  have h3 : jsStartsWith ("/categories" ++ rest) "/" = true :=
    jsStartsWith_append_of _ _ _ (by decide)
  have h4 : "/categories" ++ rest ≠ "/" := append_ne_of_lt _ _ _ (by decide)
  have h5 : "/categories" ++ rest ≠ "" := append_ne_of_lt _ _ _ (by decide)
  simp [buildTargetPath, hA, hB, h2, h3, h4, h5]

theorem rw_item_search_idem (rest : String) (h : hasInfix rest.data "/api".data = false) :
    buildTargetPath "item-service" ("/search" ++ rest) = "/search" ++ rest := by
  have hA : jsStartsWith ("/search" ++ rest) "/api/categories" = false :=
    jsStartsWith_append_ne _ _ _ (by decide) (by decide)
  have hB : jsStartsWith ("/search" ++ rest) "/api/search/items" = false :=
    jsStartsWith_append_ne _ _ _ (by decide) (by decide)
  have hocc : hasInfix ("/search" ++ rest).data "/api/items".data = false := by
    rw [String.data_append]
    exact hasInfix_append_eq_false _ _ _ (by decide)
      (hasInfix_of_isPrefixOf "/api".data _ _ (by decide) h)
  have h2 : jsReplace ("/search" ++ rest) "/api/items" "/items" = "/search" ++ rest :=
    jsReplace_no_occ _ _ _ hocc
  have h3 : jsStartsWith ("/search" ++ rest) "/" = true := jsStartsWith_append_of _ _ _ (by decide)
  have h4 : "/search" ++ rest ≠ "/" := append_ne_of_lt _ _ _ (by decide)
  have h5 : "/search" ++ rest ≠ "" := append_ne_of_lt _ _ _ (by decide)
  simp [buildTargetPath, hA, hB, h2, h3, h4, h5]

theorem rw_list_lists_idem (rest : String) (h : hasInfix rest.data "/api".data = false) :
    buildTargetPath "list-service" ("/lists" ++ rest) = "/lists" ++ rest := by
  have hocc : hasInfix ("/lists" ++ rest).data "/api/lists".data = false := by
    rw [String.data_append]
    exact hasInfix_append_eq_false _ _ _ (by decide)
      (hasInfix_of_isPrefixOf "/api".data _ _ (by decide) h)
  have h2 : jsReplace ("/lists" ++ rest) "/api/lists" "/lists" = "/lists" ++ rest :=
    jsReplace_no_occ _ _ _ hocc
  have h3 : jsStartsWith ("/lists" ++ rest) "/" = true := jsStartsWith_append_of _ _ _ (by decide)
  have h4 : "/lists" ++ rest ≠ "/" := append_ne_of_lt _ _ _ (by decide)
  have h5 : "/lists" ++ rest ≠ "" := append_ne_of_lt _ _ _ (by decide)
  simp [buildTargetPath, h2, h3, h4, h5]

/-! ## Claims -/

/-- C4, counterexample: the gateway's path rewriting is not idempotent on
every handled inbound path.  The handled path `/api/items/api/items`
rewrites to `/items/api/items`, and rewriting that result again (JS
`replace` substitutes the first occurrence of `/api/items` anywhere in the
string) yields `/items/items`, a different path. -/
theorem claim4_not_idempotent :
    buildTargetPath "item-service" (buildTargetPath "item-service" "/api/items/api/items")
      ≠ buildTargetPath "item-service" "/api/items/api/items" := by
  decide

/-- C4 (amended): for every suffix `rest`, each public proxy prefix maps to
exactly one downstream path — the service root with the suffix preserved —
which is non-empty and starts with `/` (in particular the bare collection
root `/api/items` maps to `/items`, never `/` or empty); and whenever the
suffix does not itself contain the substring `/api`, applying the rewrite
to the already-rewritten path leaves it unchanged. -/
theorem claim4_rewrite_total_idem (rest : String) :
    (buildTargetPath "user-service" ("/api/auth" ++ rest) = "/auth" ++ rest
      ∧ buildTargetPath "user-service" ("/api/users" ++ rest) = "/users" ++ rest
      ∧ buildTargetPath "item-service" ("/api/items" ++ rest) = "/items" ++ rest
      ∧ buildTargetPath "item-service" ("/api/categories" ++ rest) = "/categories" ++ rest
      ∧ buildTargetPath "item-service" ("/api/search/items" ++ rest) = "/search" ++ rest
      ∧ buildTargetPath "list-service" ("/api/lists" ++ rest) = "/lists" ++ rest)
    ∧ (("/auth" ++ rest ≠ "" ∧ jsStartsWith ("/auth" ++ rest) "/" = true)
      ∧ ("/users" ++ rest ≠ "" ∧ jsStartsWith ("/users" ++ rest) "/" = true)
      ∧ ("/items" ++ rest ≠ "" ∧ jsStartsWith ("/items" ++ rest) "/" = true)
      ∧ ("/categories" ++ rest ≠ "" ∧ jsStartsWith ("/categories" ++ rest) "/" = true)
      ∧ ("/search" ++ rest ≠ "" ∧ jsStartsWith ("/search" ++ rest) "/" = true)
      ∧ ("/lists" ++ rest ≠ "" ∧ jsStartsWith ("/lists" ++ rest) "/" = true))
    ∧ (hasInfix rest.data "/api".data = false →
      buildTargetPath "user-service" ("/auth" ++ rest) = "/auth" ++ rest
      ∧ buildTargetPath "user-service" ("/users" ++ rest) = "/users" ++ rest
      ∧ buildTargetPath "item-service" ("/items" ++ rest) = "/items" ++ rest
      ∧ buildTargetPath "item-service" ("/categories" ++ rest) = "/categories" ++ rest
      ∧ buildTargetPath "item-service" ("/search" ++ rest) = "/search" ++ rest
      ∧ buildTargetPath "list-service" ("/lists" ++ rest) = "/lists" ++ rest) := by
  refine ⟨⟨rw_user_auth rest, rw_user_users rest, rw_item_items rest,
      rw_item_categories rest, rw_item_search rest, rw_list_lists rest⟩,
    ⟨⟨append_ne_of_lt _ _ _ (by decide), jsStartsWith_append_of _ _ _ (by decide)⟩,
      ⟨append_ne_of_lt _ _ _ (by decide), jsStartsWith_append_of _ _ _ (by decide)⟩,
      ⟨append_ne_of_lt _ _ _ (by decide), jsStartsWith_append_of _ _ _ (by decide)⟩,
      ⟨append_ne_of_lt _ _ _ (by decide), jsStartsWith_append_of _ _ _ (by decide)⟩,
      ⟨append_ne_of_lt _ _ _ (by decide), jsStartsWith_append_of _ _ _ (by decide)⟩,
      ⟨append_ne_of_lt _ _ _ (by decide), jsStartsWith_append_of _ _ _ (by decide)⟩⟩,
    fun h => ⟨rw_user_auth_idem rest h, rw_user_users_idem rest h, rw_item_items_idem rest h,
      rw_item_categories_idem rest h, rw_item_search_idem rest h, rw_list_lists_idem rest h⟩⟩

/-- C4, witness: at the bare collection root (`rest = ""`) the rewrite maps
`/api/items` to `/items`, and a second application leaves `/items`
unchanged. -/
theorem claim4_witness :
    buildTargetPath "item-service" ("/api/items" ++ "") = "/items" ++ ""
    ∧ buildTargetPath "item-service" ("/items" ++ "") = "/items" ++ "" :=
  ⟨(claim4_rewrite_total_idem "").1.2.2.1,
    ((claim4_rewrite_total_idem "").2.2 (by decide)).2.2.1⟩


/-! ## Equation lemmas for the breaker operations -/

theorem recordFailure_of_none (cbs : BreakerMap) (name : String) (now : Nat)
    (h : alGet cbs name = none) :
    recordFailure cbs name now =
      alSet cbs name { failures := 1, isOpen := false, isHalfOpen := false, lastFailure := some now } := by
  unfold recordFailure
  rw [h]
  rfl

theorem recordFailure_of_get_lt (cbs : BreakerMap) (name : String) (now : Nat) (b : Breaker)
    (h : alGet cbs name = some b) (hlt : b.failures + 1 < 3) :
    recordFailure cbs name now =
      alSet cbs name { b with failures := b.failures + 1, lastFailure := some now } := by
  unfold recordFailure
  rw [h]
  simp only [Option.getD_some]
  rw [if_neg (by omega)]

theorem recordFailure_of_get_ge (cbs : BreakerMap) (name : String) (now : Nat) (b : Breaker)
    (h : alGet cbs name = some b) (hge : 3 ≤ b.failures + 1) :
    recordFailure cbs name now =
      alSet cbs name { failures := b.failures + 1, isOpen := true, isHalfOpen := false, lastFailure := some now } := by
  unfold recordFailure
  rw [h]
  simp only [Option.getD_some]
  rw [if_pos (by omega)]

theorem resetCircuitBreaker_of_get (cbs : BreakerMap) (name : String) (b : Breaker)
    (h : alGet cbs name = some b) :
    resetCircuitBreaker cbs name =
      alSet cbs name { b with failures := 0, isOpen := false, isHalfOpen := false } := by
  unfold resetCircuitBreaker
  rw [h]

/-- C1: starting from a clean breaker (no entry, or a reset entry with zero
failures), three consecutive `recordFailure` calls — with no intervening
success — leave the breaker Open with `failures = 3` (and after only two it
is still not short-circuiting); while the 30 s cooldown since the third
failure has not elapsed, the next `proxyRequest` for that name returns the
synthesized 503 short-circuit with no registry lookup and no network call,
whatever the downstream would have answered. -/
theorem claim1_three_failures_open (cbs : BreakerMap) (name : String) (t1 t2 t3 : Nat)
    (h0 : alGet cbs name = none
      ∨ ∃ lf, alGet cbs name =
          some { failures := 0, isOpen := false, isHalfOpen := false, lastFailure := lf }) :
    (∀ t, (isCircuitOpen (recordFailure (recordFailure cbs name t1) name t2) name t).1 = false)
    ∧ alGet (recordFailure (recordFailure (recordFailure cbs name t1) name t2) name t3) name =
        some { failures := 3, isOpen := true, isHalfOpen := false, lastFailure := some t3 }
    ∧ ∀ (path : String) (reg : Registry) (t4 : Nat) (net : NetOutcome), t4 - t3 ≤ 30000 →
        proxyRequest name path
            (recordFailure (recordFailure (recordFailure cbs name t1) name t2) name t3)
            reg t4 net =
          { status := 503, body := circuitOpenBody name,
            breakers := recordFailure (recordFailure (recordFailure cbs name t1) name t2) name t3,
            didLookup := false, didNetwork := false, targetUrl := none } := by
  have g1 : alGet (recordFailure cbs name t1) name =
      some { failures := 1, isOpen := false, isHalfOpen := false, lastFailure := some t1 } := by
    rcases h0 with h | ⟨lf, h⟩
    · rw [recordFailure_of_none cbs name t1 h]
      exact alGet_alSet_self _ _ _
    · rw [recordFailure_of_get_lt cbs name t1 _ h (by simp)]
      exact alGet_alSet_self _ _ _
  have g2 : alGet (recordFailure (recordFailure cbs name t1) name t2) name =
      some { failures := 2, isOpen := false, isHalfOpen := false, lastFailure := some t2 } := by
    rw [recordFailure_of_get_lt _ name t2 _ g1 (by simp)]
    exact alGet_alSet_self _ _ _
  have g3 : alGet (recordFailure (recordFailure (recordFailure cbs name t1) name t2) name t3) name =
      some { failures := 3, isOpen := true, isHalfOpen := false, lastFailure := some t3 } := by
    rw [recordFailure_of_get_ge _ name t3 _ g2 (by simp)]
    exact alGet_alSet_self _ _ _
  refine ⟨?_, g3, ?_⟩
  · intro t
    simp [isCircuitOpen, g2]
  · intro path reg t4 net h4
    have hlt : ¬ 30000 < t4 - t3 := by omega
    simp [proxyRequest, isCircuitOpen, g3, hlt]

/-- C1, witness: three failures recorded for `item-service` on an empty
breaker table open the breaker, and an immediate request short-circuits
even though the registry knows the service and the downstream would have
answered 200. -/
theorem claim1_witness :
    alGet ([] : BreakerMap) "item-service" = none
    ∧ proxyRequest "item-service" "/api/items"
        (recordFailure (recordFailure (recordFailure [] "item-service" 0) "item-service" 1)
          "item-service" 2)
        [("item-service", "http://localhost:3003")] 2 (.reply 200 .null) =
      { status := 503, body := circuitOpenBody "item-service",
        breakers := recordFailure (recordFailure (recordFailure [] "item-service" 0)
          "item-service" 1) "item-service" 2,
        didLookup := false, didNetwork := false, targetUrl := none } :=
  ⟨rfl, (claim1_three_failures_open [] "item-service" 0 1 2 (Or.inl rfl)).2.2
    "/api/items" [("item-service", "http://localhost:3003")] 2 (.reply 200 .null) (by decide)⟩

/-- C2, counterexample: at exactly 30000 ms elapsed since `lastFailure` —
a case covered by the claim's "at least 30 seconds" — an Open breaker
still short-circuits: `isCircuitOpen` tests the strict
`(now - lastFailure) > 30000`, so the request gets the synthesized 503
with no registry lookup and no network call instead of being forwarded as
a trial. -/
theorem claim2_boundary_not_forwarded :
    (proxyRequest "item-service" "/api/items"
        [("item-service", { failures := 3, isOpen := true, isHalfOpen := false, lastFailure := some 0 })]
        [("item-service", "http://localhost:3003")] 30000 (.reply 200 .null)).didNetwork = false
    ∧ (proxyRequest "item-service" "/api/items"
        [("item-service", { failures := 3, isOpen := true, isHalfOpen := false, lastFailure := some 0 })]
        [("item-service", "http://localhost:3003")] 30000 (.reply 200 .null)).didLookup = false
    ∧ (proxyRequest "item-service" "/api/items"
        [("item-service", { failures := 3, isOpen := true, isHalfOpen := false, lastFailure := some 0 })]
        [("item-service", "http://localhost:3003")] 30000 (.reply 200 .null)).status = 503
    ∧ (proxyRequest "item-service" "/api/items"
        [("item-service", { failures := 3, isOpen := true, isHalfOpen := false, lastFailure := some 0 })]
        [("item-service", "http://localhost:3003")] 30000 (.reply 200 .null)).body =
      circuitOpenBody "item-service" :=
  ⟨rfl, rfl, rfl, rfl⟩

/-- C2 (amended): when a service's breaker is Open (which, per the
breaker's own invariant, implies at least 3 recorded failures) and
strictly more than the 30 s cooldown — more than 30000 ms, not merely at
least 30 s — has elapsed since `lastFailure`, the next `proxyRequest` is
forwarded as a trial rather than short-circuited; a successful trial
(downstream status < 500) leaves the breaker Closed with `failures = 0`,
and a failed trial (network failure, response-less error, or a ≥ 500 reply)
reopens it immediately with `lastFailure` restarted at the trial time. -/
theorem claim2_halfopen_trial (cbs : BreakerMap) (name path url : String) (b : Breaker)
    (reg : Registry) (now : Nat) (net : NetOutcome)
    (hb : alGet cbs name = some b) (hOpen : b.isOpen = true) (hCnt : 3 ≤ b.failures)
    (hCool : 30000 < now - b.lastFailure.getD 0)
    (hreg : alGet reg name = some url) :
    (proxyRequest name path cbs reg now net).didNetwork = true
    ∧ (∀ s d, net = .reply s d → s < 500 →
        alGet (proxyRequest name path cbs reg now net).breakers name =
          some { failures := 0, isOpen := false, isHalfOpen := false, lastFailure := b.lastFailure })
    ∧ ((net = .connRefused ∨ net = .timedOut ∨ (∃ m, net = .otherFailure m)
        ∨ (∃ s d, net = .reply s d ∧ 500 ≤ s)) →
        alGet (proxyRequest name path cbs reg now net).breakers name =
          some { failures := b.failures + 1, isOpen := true, isHalfOpen := false, lastFailure := some now }) := by
  have hco : isCircuitOpen cbs name now =
      (false, alSet cbs name { b with isOpen := false, isHalfOpen := true }) := by
    simp [isCircuitOpen, hb, hOpen, hCool]
  have gHalf : alGet (alSet cbs name { b with isOpen := false, isHalfOpen := true }) name =
      some { b with isOpen := false, isHalfOpen := true } := alGet_alSet_self _ _ _
  have hRecEq : recordFailure (alSet cbs name { b with isOpen := false, isHalfOpen := true }) name now =
      alSet (alSet cbs name { b with isOpen := false, isHalfOpen := true }) name
        { failures := b.failures + 1, isOpen := true, isHalfOpen := false, lastFailure := some now } := by
    rw [recordFailure_of_get_ge _ name now _ gHalf (by simp; omega)]
  have hRec : alGet (recordFailure (alSet cbs name { b with isOpen := false, isHalfOpen := true }) name now) name =
      some { failures := b.failures + 1, isOpen := true, isHalfOpen := false, lastFailure := some now } := by
    rw [hRecEq]
    exact alGet_alSet_self _ _ _
  refine ⟨?_, ?_, ?_⟩
  · cases net with
    | reply s d =>
      by_cases hs : s < 500 <;> simp [proxyRequest, hco, hreg, hs]
    | connRefused => simp [proxyRequest, hco, hreg]
    | timedOut => simp [proxyRequest, hco, hreg]
    | otherFailure m => simp [proxyRequest, hco, hreg]
  · intro s d hnet hs
    subst hnet
    simp only [proxyRequest, hco, hreg]
    simp only [Bool.false_eq_true, if_false, hs, if_true, if_pos hs]
    rw [resetCircuitBreaker_of_get _ name _ gHalf]
    rw [alGet_alSet_self]
  · intro hfail
    rcases hfail with h | h | ⟨m, h⟩ | ⟨s, d, h, hs⟩ <;> subst h
    · simp only [proxyRequest, hco, hreg]
      simpa using hRec
    · simp only [proxyRequest, hco, hreg]
      simpa using hRec
    · simp only [proxyRequest, hco, hreg]
      simpa using hRec
    · have hns : ¬ s < 500 := by omega
      simp only [proxyRequest, hco, hreg]
      simp only [hns, if_false]
      simpa using hRec

/-- C2, witness: an open breaker with 3 failures recorded at time 0 is
trialled at time 40000; with a refused connection the trial fails and the
breaker reopens with the cooldown restarted at 40000. -/
theorem claim2_witness :
    (proxyRequest "item-service" "/api/items"
        [("item-service", { failures := 3, isOpen := true, isHalfOpen := false, lastFailure := some 0 })]
        [("item-service", "http://localhost:3003")] 40000 .connRefused).didNetwork = true
    ∧ alGet (proxyRequest "item-service" "/api/items"
        [("item-service", { failures := 3, isOpen := true, isHalfOpen := false, lastFailure := some 0 })]
        [("item-service", "http://localhost:3003")] 40000 .connRefused).breakers "item-service" =
      some { failures := 4, isOpen := true, isHalfOpen := false, lastFailure := some 40000 } :=
  ⟨(claim2_halfopen_trial
      [("item-service", { failures := 3, isOpen := true, isHalfOpen := false, lastFailure := some 0 })]
      "item-service" "/api/items" "http://localhost:3003"
      { failures := 3, isOpen := true, isHalfOpen := false, lastFailure := some 0 }
      [("item-service", "http://localhost:3003")] 40000 .connRefused
      rfl rfl (by decide) (by decide) rfl).1,
    (claim2_halfopen_trial
      [("item-service", { failures := 3, isOpen := true, isHalfOpen := false, lastFailure := some 0 })]
      "item-service" "/api/items" "http://localhost:3003"
      { failures := 3, isOpen := true, isHalfOpen := false, lastFailure := some 0 }
      [("item-service", "http://localhost:3003")] 40000 .connRefused
      rfl rfl (by decide) (by decide) rfl).2.2 (Or.inl rfl)⟩

/-- C3: for a service name with no registry entry, `proxyRequest` answers
503 and never attempts a network call, whatever the breaker state; and
whenever the breaker check passes, the response is exactly the synthesized
503 that names the unresolved service and lists the currently known
service names, with a registry lookup but no network call.
(`serviceRegistry.discover` is outside the gateway file and is modelled
from its contract: it fails when the name is absent.) -/
theorem claim3_registry_miss (name path : String) (cbs : BreakerMap) (reg : Registry)
    (now : Nat) (net : NetOutcome) (hreg : alGet reg name = none) :
    ((proxyRequest name path cbs reg now net).status = 503
      ∧ (proxyRequest name path cbs reg now net).didNetwork = false)
    ∧ ((isCircuitOpen cbs name now).1 = false →
        proxyRequest name path cbs reg now net =
          { status := 503, body := notFoundBody name (reg.map Prod.fst),
            breakers := (isCircuitOpen cbs name now).2, didLookup := true,
            didNetwork := false, targetUrl := none }) := by
  by_cases hco : (isCircuitOpen cbs name now).1 = true
  · constructor
    · simp [proxyRequest, hco]
    · intro h
      rw [h] at hco
      simp at hco
  · rw [Bool.not_eq_true] at hco
    constructor
    · simp [proxyRequest, hco, hreg]
    · intro _
      simp [proxyRequest, hco, hreg]

/-- C3, witness: with an empty breaker table and a registry that only
knows `user-service`, proxying to `item-service` yields the 503 that names
it and lists the known services, without any network call. -/
theorem claim3_witness :
    alGet ([("user-service", "http://localhost:3001")] : Registry) "item-service" = none
    ∧ proxyRequest "item-service" "/api/items" [] [("user-service", "http://localhost:3001")]
        0 (.reply 200 .null) =
      { status := 503, body := notFoundBody "item-service" ["user-service"],
        breakers := [], didLookup := true, didNetwork := false, targetUrl := none } :=
  ⟨rfl, (claim3_registry_miss "item-service" "/api/items" [] [("user-service", "http://localhost:3001")]
      0 (.reply 200 .null) rfl).2 rfl⟩

/-- C7: when the breaker check passes, the registry resolves, and the
forwarded request fails at the network level (connection refused or
timeout), `proxyRequest` records a breaker failure for the service — the
failure count rises by one and `lastFailure` is stamped with the request
time — and returns a synthesized 503 whose body carries `success: false`,
the service name, and the failure kind as the axios error code. -/
theorem claim7_network_failure (name path url : String) (cbs : BreakerMap) (reg : Registry)
    (now : Nat) (net : NetOutcome)
    (hco : (isCircuitOpen cbs name now).1 = false)
    (hreg : alGet reg name = some url)
    (hnet : net = .connRefused ∨ net = .timedOut) :
    (proxyRequest name path cbs reg now net).status = 503
    ∧ (proxyRequest name path cbs reg now net).breakers =
        recordFailure (isCircuitOpen cbs name now).2 name now
    ∧ jLookup (proxyRequest name path cbs reg now net).body "success" = some (.bool false)
    ∧ jLookup (proxyRequest name path cbs reg now net).body "service" = some (.str name)
    ∧ (net = .connRefused →
        jLookup (proxyRequest name path cbs reg now net).body "error" = some (.str "ECONNREFUSED"))
    ∧ (net = .timedOut →
        jLookup (proxyRequest name path cbs reg now net).body "error" = some (.str "ETIMEDOUT"))
    ∧ failCount (proxyRequest name path cbs reg now net).breakers name =
        failCount (isCircuitOpen cbs name now).2 name + 1
    ∧ (alGet (proxyRequest name path cbs reg now net).breakers name).map Breaker.lastFailure =
        some (some now) := by
  have hfc : ∀ m : BreakerMap, failCount (recordFailure m name now) name = failCount m name + 1
      ∧ (alGet (recordFailure m name now) name).map Breaker.lastFailure = some (some now) := by
    intro m
    rcases hm : alGet m name with _ | b
    · rw [recordFailure_of_none m name now hm]
      simp [failCount, alGet_alSet_self, hm]
    · by_cases hb : b.failures + 1 < 3
      · rw [recordFailure_of_get_lt m name now b hm hb]
        simp [failCount, alGet_alSet_self, hm]
      · rw [recordFailure_of_get_ge m name now b hm (by omega)]
        simp [failCount, alGet_alSet_self, hm]
  rcases hnet with h | h <;> subst h <;>
    refine ⟨by simp [proxyRequest, hco, hreg], by simp [proxyRequest, hco, hreg], ?_, ?_, ?_, ?_, ?_, ?_⟩ <;>
    simp [proxyRequest, hco, hreg, unavailBody, jLookup, jLookupFs, hfc]

/-- C7, witness: a refused connection to a registered `item-service` with a
clean breaker table yields the 503 with `error: "ECONNREFUSED"` and one
recorded failure. -/
theorem claim7_witness :
    (isCircuitOpen [] "item-service" 5).1 = false
    ∧ (proxyRequest "item-service" "/api/items" [] [("item-service", "http://localhost:3003")]
        5 .connRefused).status = 503
    ∧ jLookup (proxyRequest "item-service" "/api/items" [] [("item-service", "http://localhost:3003")]
        5 .connRefused).body "error" = some (.str "ECONNREFUSED")
    ∧ failCount (proxyRequest "item-service" "/api/items" [] [("item-service", "http://localhost:3003")]
        5 .connRefused).breakers "item-service" =
      failCount (isCircuitOpen [] "item-service" 5).2 "item-service" + 1 :=
  ⟨rfl,
    (claim7_network_failure "item-service" "/api/items" "http://localhost:3003" []
      [("item-service", "http://localhost:3003")] 5 .connRefused rfl rfl (Or.inl rfl)).1,
    (claim7_network_failure "item-service" "/api/items" "http://localhost:3003" []
      [("item-service", "http://localhost:3003")] 5 .connRefused rfl rfl (Or.inl rfl)).2.2.2.2.1 rfl,
    (claim7_network_failure "item-service" "/api/items" "http://localhost:3003" []
      [("item-service", "http://localhost:3003")] 5 .connRefused rfl rfl (Or.inl rfl)).2.2.2.2.2.2.1⟩

/-- C8: when the breaker check passes and the registry resolves, a
downstream reply is relayed verbatim (same status, same body, a network
call was made); a status below 500 additionally resets the service's
breaker (failure count 0, Closed for any existing entry), while a status of
500 or above additionally records a breaker failure (count rises by one). -/
theorem claim8_relay (name path url : String) (cbs : BreakerMap) (reg : Registry)
    (now s : Nat) (d : JVal)
    (hco : (isCircuitOpen cbs name now).1 = false)
    (hreg : alGet reg name = some url) :
    (proxyRequest name path cbs reg now (.reply s d)).status = s
    ∧ (proxyRequest name path cbs reg now (.reply s d)).body = d
    ∧ (proxyRequest name path cbs reg now (.reply s d)).didNetwork = true
    ∧ (s < 500 →
        (proxyRequest name path cbs reg now (.reply s d)).breakers =
          resetCircuitBreaker (isCircuitOpen cbs name now).2 name
        ∧ ∀ b, alGet (isCircuitOpen cbs name now).2 name = some b →
            alGet (proxyRequest name path cbs reg now (.reply s d)).breakers name =
              some { failures := 0, isOpen := false, isHalfOpen := false, lastFailure := b.lastFailure })
    ∧ (500 ≤ s →
        (proxyRequest name path cbs reg now (.reply s d)).breakers =
          recordFailure (isCircuitOpen cbs name now).2 name now
        ∧ failCount (proxyRequest name path cbs reg now (.reply s d)).breakers name =
            failCount (isCircuitOpen cbs name now).2 name + 1) := by
  by_cases hs : s < 500
  · refine ⟨by simp [proxyRequest, hco, hreg, hs], by simp [proxyRequest, hco, hreg, hs],
      by simp [proxyRequest, hco, hreg, hs], ?_, ?_⟩
    · intro _
      refine ⟨by simp [proxyRequest, hco, hreg, hs], ?_⟩
      intro b hb
      have : (proxyRequest name path cbs reg now (.reply s d)).breakers =
          resetCircuitBreaker (isCircuitOpen cbs name now).2 name := by
        simp [proxyRequest, hco, hreg, hs]
      rw [this, resetCircuitBreaker_of_get _ name b hb, alGet_alSet_self]
    · intro h
      omega
  · refine ⟨by simp [proxyRequest, hco, hreg, hs], by simp [proxyRequest, hco, hreg, hs],
      by simp [proxyRequest, hco, hreg, hs], by intro h; omega, ?_⟩
    intro _
    have hbrk : (proxyRequest name path cbs reg now (.reply s d)).breakers =
        recordFailure (isCircuitOpen cbs name now).2 name now := by
      simp [proxyRequest, hco, hreg, hs]
    refine ⟨hbrk, ?_⟩
    rw [hbrk]
    rcases hm : alGet (isCircuitOpen cbs name now).2 name with _ | b
    · rw [recordFailure_of_none _ name now hm]
      simp [failCount, alGet_alSet_self, hm]
    · by_cases hb : b.failures + 1 < 3
      · rw [recordFailure_of_get_lt _ name now b hm hb]
        simp [failCount, alGet_alSet_self, hm]
      · rw [recordFailure_of_get_ge _ name now b hm (by omega)]
        simp [failCount, alGet_alSet_self, hm]

/-- C8, witness: a 404 from a registered `item-service` is relayed as 404
with its body, and a 500 is relayed as 500 while adding one recorded
failure. -/
theorem claim8_witness :
    (proxyRequest "item-service" "/api/items/42" [] [("item-service", "http://localhost:3003")]
      7 (.reply 404 (.str "nf"))).status = 404
    ∧ (proxyRequest "item-service" "/api/items/42" [] [("item-service", "http://localhost:3003")]
        7 (.reply 404 (.str "nf"))).body = .str "nf"
    ∧ (proxyRequest "item-service" "/api/items/42" [] [("item-service", "http://localhost:3003")]
        7 (.reply 500 .null)).status = 500
    ∧ failCount (proxyRequest "item-service" "/api/items/42" [] [("item-service", "http://localhost:3003")]
        7 (.reply 500 .null)).breakers "item-service" =
      failCount (isCircuitOpen [] "item-service" 7).2 "item-service" + 1 :=
  ⟨(claim8_relay "item-service" "/api/items/42" "http://localhost:3003" []
      [("item-service", "http://localhost:3003")] 7 404 (.str "nf") rfl rfl).1,
    (claim8_relay "item-service" "/api/items/42" "http://localhost:3003" []
      [("item-service", "http://localhost:3003")] 7 404 (.str "nf") rfl rfl).2.1,
    (claim8_relay "item-service" "/api/items/42" "http://localhost:3003" []
      [("item-service", "http://localhost:3003")] 7 500 .null rfl rfl).1,
    ((claim8_relay "item-service" "/api/items/42" "http://localhost:3003" []
      [("item-service", "http://localhost:3003")] 7 500 .null rfl rfl).2.2.2.2 (by decide)).2⟩

/-- C5, counterexample: in `globalSearch` a failed constituent call does
not produce a `data: null` label — the label carries an empty `results`
array and no `data` field at all.  Concretely, with `q = "milk"` and a
rejected item search, the `items` label has `available = false`, no `data`
field, and `results = []`. -/
theorem claim5_search_label_shape :
    jPath (globalSearch (some "milk") none (.rejected "connect ECONNREFUSED") (.fulfilled .null)).body
        ["data", "items", "available"] = some (.bool false)
    ∧ jPath (globalSearch (some "milk") none (.rejected "connect ECONNREFUSED") (.fulfilled .null)).body
        ["data", "items", "data"] = none
    ∧ jPath (globalSearch (some "milk") none (.rejected "connect ECONNREFUSED") (.fulfilled .null)).body
        ["data", "items", "results"] = some (.arr []) :=
  ⟨rfl, rfl, rfl⟩

/-- C5 (amended): both aggregates answer 200 with `success: true` whatever
the settled outcomes of their constituent calls, and expose one label per
requested constituent; a rejected constituent yields a label with
`available: false` and a non-null `error` carrying the rejection message,
with `data: null` in the dashboard and an empty `results` array (no `data`
field) in the global search. -/
theorem claim5_partial_failure (a ts : String) (ss : JVal)
    (r1 r2 r3 r4 itemR listR : Settled) (auth : Option String) (s : String) (hs : s ≠ "") :
    (getDashboard (some a) ts ss r1 r2 r3 r4).status = 200
    ∧ jLookup (getDashboard (some a) ts ss r1 r2 r3 r4).body "success" = some (.bool true)
    ∧ jPath (getDashboard (some a) ts ss r1 r2 r3 r4).body ["data", "user_data", "profile"] =
        some (dashLabel r1)
    ∧ jPath (getDashboard (some a) ts ss r1 r2 r3 r4).body ["data", "shopping_data", "lists"] =
        some (dashLabel r3)
    ∧ jPath (getDashboard (some a) ts ss r1 r2 r3 r4).body ["data", "shopping_data", "items"] =
        some (dashLabel r2)
    ∧ jPath (getDashboard (some a) ts ss r1 r2 r3 r4).body ["data", "shopping_data", "categories"] =
        some (dashLabel r4)
    ∧ (globalSearch (some s) auth itemR listR).status = 200
    ∧ jLookup (globalSearch (some s) auth itemR listR).body "success" = some (.bool true)
    ∧ jPath (globalSearch (some s) auth itemR listR).body ["data", "items"] = some (searchLabel itemR)
    ∧ (auth.isSome = true →
        jPath (globalSearch (some s) auth itemR listR).body ["data", "lists"] = some (searchLabel listR))
    ∧ (∀ m (x : Settled), x = .rejected m →
        dashLabel x = .obj [("available", .bool false), ("data", .null), ("error", .str m)]
        ∧ searchLabel x = .obj [("available", .bool false), ("results", .arr []), ("error", .str m)]) := by
  refine ⟨rfl, rfl, rfl, rfl, rfl, rfl, ?_, ?_, ?_, ?_, ?_⟩
  · simp [globalSearch, hs]
  · simp [globalSearch, hs, jLookup, jLookupFs]
  · cases auth <;> simp [globalSearch, hs, jLookup, jLookupFs, jPath]
  · intro ha
    cases auth with
    | none => simp at ha
    | some a' => simp [globalSearch, hs, jLookup, jLookupFs, jPath]
  · intro m x hx
    subst hx
    exact ⟨rfl, rfl⟩

/-- C5, witness: with one rejected and three fulfilled constituents the
dashboard still answers 200 and `q = "milk"` search answers 200. -/
theorem claim5_witness :
    ("milk" : String) ≠ ""
    ∧ (getDashboard (some "Bearer t") "2026-01-01" .null (.rejected "down") (.fulfilled .null)
        (.fulfilled .null) (.fulfilled .null)).status = 200
    ∧ (globalSearch (some "milk") none (.rejected "down") (.fulfilled .null)).status = 200 :=
  ⟨by decide,
    (claim5_partial_failure "Bearer t" "2026-01-01" .null (.rejected "down") (.fulfilled .null)
      (.fulfilled .null) (.fulfilled .null) (.rejected "down") (.fulfilled .null) none "milk"
      (by decide)).1,
    (claim5_partial_failure "Bearer t" "2026-01-01" .null (.rejected "down") (.fulfilled .null)
      (.fulfilled .null) (.fulfilled .null) (.rejected "down") (.fulfilled .null) none "milk"
      (by decide)).2.2.2.2.2.2.1⟩

/-- C6, counterexample: an unauthenticated dashboard request does not get a
response with the auth-gated labels omitted — the gateway fails the whole
request with 401 (`success: false`) before issuing any downstream call. -/
theorem claim6_dashboard_401 :
    (getDashboard none "2026-02-02" .null (.fulfilled .null) (.fulfilled .null)
        (.fulfilled .null) (.fulfilled .null)).status = 401
    ∧ jLookup (getDashboard none "2026-02-02" .null (.fulfilled .null) (.fulfilled .null)
        (.fulfilled .null) (.fulfilled .null)).body "success" = some (.bool false)
    ∧ (getDashboard none "2026-02-02" .null (.fulfilled .null) (.fulfilled .null)
        (.fulfilled .null) (.fulfilled .null)).callsIssued = 0 :=
  ⟨rfl, rfl, rfl⟩

/-- C6 (amended): for the global search, an unauthenticated aggregate
request omits the auth-gated `lists` label entirely — the response is the
200 success carrying only `query` and `items`, with a single downstream
call — whereas the dashboard instead rejects unauthenticated requests
outright with 401 and issues no downstream call at all. -/
theorem claim6_unauthenticated (s ts : String) (hs : s ≠ "") (itemR listR : Settled)
    (ss : JVal) (r1 r2 r3 r4 : Settled) :
    globalSearch (some s) none itemR listR =
      { status := 200,
        body := .obj [("success", .bool true),
          ("data", .obj [("query", .str s), ("items", searchLabel itemR)])],
        callsIssued := 1 }
    ∧ (getDashboard none ts ss r1 r2 r3 r4).status = 401
    ∧ (getDashboard none ts ss r1 r2 r3 r4).callsIssued = 0 := by
  refine ⟨?_, rfl, rfl⟩
  simp [globalSearch, hs]

/-- C6, witness: searching for `"pão"` unauthenticated gives the 200 body
without a `lists` label, one downstream call, and the dashboard 401. -/
theorem claim6_witness :
    ("pão" : String) ≠ ""
    ∧ globalSearch (some "pão") none (.fulfilled .null) (.fulfilled .null) =
      { status := 200,
        body := .obj [("success", .bool true),
          ("data", .obj [("query", .str "pão"), ("items", searchLabel (.fulfilled .null))])],
        callsIssued := 1 }
    ∧ (getDashboard none "t" .null (.fulfilled .null) (.fulfilled .null) (.fulfilled .null)
        (.fulfilled .null)).status = 401 :=
  ⟨by decide,
    (claim6_unauthenticated "pão" "t" (by decide) (.fulfilled .null) (.fulfilled .null) .null
      (.fulfilled .null) (.fulfilled .null) (.fulfilled .null) (.fulfilled .null)).1,
    (claim6_unauthenticated "pão" "t" (by decide) (.fulfilled .null) (.fulfilled .null) .null
      (.fulfilled .null) (.fulfilled .null) (.fulfilled .null) (.fulfilled .null)).2.1⟩

/-- C9, counterexample: the unauthenticated-dashboard 401 is an error
response produced by the gateway (`success: false`) that carries no
`service` field, so a caller cannot tell from it which side failed. -/
theorem claim9_missing_service_field :
    (getDashboard none "2026-03-03" .null (.fulfilled .null) (.fulfilled .null)
        (.fulfilled .null) (.fulfilled .null)).status = 401
    ∧ jLookup (getDashboard none "2026-03-03" .null (.fulfilled .null) (.fulfilled .null)
        (.fulfilled .null) (.fulfilled .null)).body "success" = some (.bool false)
    ∧ jLookup (getDashboard none "2026-03-03" .null (.fulfilled .null) (.fulfilled .null)
        (.fulfilled .null) (.fulfilled .null)).body "service" = none :=
  ⟨rfl, rfl, rfl⟩

/-- C9 (amended): every error envelope produced on the proxy path (breaker
short-circuit, registry miss, network failure, response-less failure) and
the gateway's 404 handler carries `success: false`, a human-readable
`message`, and the originating `service` name; the aggregate endpoints'
own error responses (dashboard 401, search 400) carry `success: false` and
a `message` but omit the `service` field. -/
theorem claim9_error_envelopes (name code msg ts : String) (avail : List String) (ss : JVal)
    (r1 r2 r3 r4 itemR listR : Settled) (auth : Option String) :
    (jLookup (circuitOpenBody name) "success" = some (.bool false)
      ∧ (∃ m, jLookup (circuitOpenBody name) "message" = some (.str m))
      ∧ jLookup (circuitOpenBody name) "service" = some (.str name))
    ∧ (jLookup (notFoundBody name avail) "success" = some (.bool false)
      ∧ (∃ m, jLookup (notFoundBody name avail) "message" = some (.str m))
      ∧ jLookup (notFoundBody name avail) "service" = some (.str name))
    ∧ (jLookup (unavailBody name code) "success" = some (.bool false)
      ∧ (∃ m, jLookup (unavailBody name code) "message" = some (.str m))
      ∧ jLookup (unavailBody name code) "service" = some (.str name))
    ∧ (jLookup (gatewayErrBody msg) "success" = some (.bool false)
      ∧ (∃ m, jLookup (gatewayErrBody msg) "message" = some (.str m))
      ∧ jLookup (gatewayErrBody msg) "service" = some (.str "api-gateway"))
    ∧ (jLookup endpoint404Body "success" = some (.bool false)
      ∧ (∃ m, jLookup endpoint404Body "message" = some (.str m))
      ∧ jLookup endpoint404Body "service" = some (.str "api-gateway"))
    ∧ ((getDashboard none ts ss r1 r2 r3 r4).status = 401
      ∧ jLookup (getDashboard none ts ss r1 r2 r3 r4).body "success" = some (.bool false)
      ∧ (∃ m, jLookup (getDashboard none ts ss r1 r2 r3 r4).body "message" = some (.str m))
      ∧ jLookup (getDashboard none ts ss r1 r2 r3 r4).body "service" = none)
    ∧ ((globalSearch none auth itemR listR).status = 400
      ∧ jLookup (globalSearch none auth itemR listR).body "success" = some (.bool false)
      ∧ (∃ m, jLookup (globalSearch none auth itemR listR).body "message" = some (.str m))
      ∧ jLookup (globalSearch none auth itemR listR).body "service" = none) :=
  ⟨⟨rfl, ⟨_, rfl⟩, rfl⟩, ⟨rfl, ⟨_, rfl⟩, rfl⟩, ⟨rfl, ⟨_, rfl⟩, rfl⟩, ⟨rfl, ⟨_, rfl⟩, rfl⟩,
    ⟨rfl, ⟨_, rfl⟩, rfl⟩, ⟨rfl, rfl, ⟨_, rfl⟩, rfl⟩, ⟨rfl, rfl, ⟨_, rfl⟩, rfl⟩⟩

/-- C10: a `GET /api/search` whose query string lacks a non-empty `q`
(absent, or present but empty — the JS falsiness test) is answered with
400, `success: false`, and zero downstream calls; with a non-empty `q` the
fan-out is performed — 200, one call unauthenticated, two authenticated,
always at least one. -/
theorem claim10_search_requires_q (auth : Option String) (itemR listR : Settled)
    (s : String) (hs : s ≠ "") :
    globalSearch none auth itemR listR =
      { status := 400,
        body := .obj [("success", .bool false),
                      ("message", .str "Parâmetro de busca \"q\" é obrigatório")],
        callsIssued := 0 }
    ∧ globalSearch (some "") auth itemR listR =
      { status := 400,
        body := .obj [("success", .bool false),
                      ("message", .str "Parâmetro de busca \"q\" é obrigatório")],
        callsIssued := 0 }
    ∧ (globalSearch (some s) auth itemR listR).status = 200
    ∧ (globalSearch (some s) auth itemR listR).callsIssued =
        (if auth.isSome then 2 else 1)
    ∧ 1 ≤ (globalSearch (some s) auth itemR listR).callsIssued := by
  refine ⟨rfl, rfl, ?_, ?_, ?_⟩
  · simp [globalSearch, hs]
  · cases auth <;> simp [globalSearch, hs]
  · cases auth <;> simp [globalSearch, hs]

/-- C10, witness: an unauthenticated search with `q = "arroz"` issues
exactly one downstream call and answers 200, while a missing `q` yields
the 400 with zero calls. -/
theorem claim10_witness :
    ("arroz" : String) ≠ ""
    ∧ globalSearch none none (.fulfilled .null) (.fulfilled .null) =
      { status := 400,
        body := .obj [("success", .bool false),
                      ("message", .str "Parâmetro de busca \"q\" é obrigatório")],
        callsIssued := 0 }
    ∧ (globalSearch (some "arroz") none (.fulfilled .null) (.fulfilled .null)).status = 200
    ∧ (globalSearch (some "arroz") none (.fulfilled .null) (.fulfilled .null)).callsIssued = 1 :=
  ⟨by decide,
    (claim10_search_requires_q none (.fulfilled .null) (.fulfilled .null) "arroz" (by decide)).1,
    (claim10_search_requires_q none (.fulfilled .null) (.fulfilled .null) "arroz" (by decide)).2.2.1,
    (claim10_search_requires_q none (.fulfilled .null) (.fulfilled .null) "arroz" (by decide)).2.2.2.1⟩
